import Mathlib

/-!
Verification of the session-lifecycle state machine and formatting helpers of
the MikroTik hotspot login page (`src/main.js`).

The JavaScript module is shallowly embedded: the mutable module-level
variables (`isLoggedIn`, `isAnimating`, `statusPollInterval`, the displayed
status fields, the error paragraph, the visible section) become fields of an
explicit `State` record, every handler becomes a function `State → ...`, and
the side effects directed at external collaborators (HTTP requests, the
cookie/blocker helper scripts) are returned as an explicit effect list.
JSON scalar values are modelled by `JVal`; machine numbers are modelled by
`Int` (the byte counts handled by the page are integers).  JavaScript string
operations (`toLowerCase`, `includes`, `trim`, `split`, `substring`,
`repeat`) are embedded for the ASCII/Arabic alphabet actually used by the
page, where they agree with the character-wise Lean counterparts used below.
-/

/-- A JSON scalar value as it appears in the API envelope: a string, an
integer number, or `null`.  (The envelopes produced by the router contain no
fractional numbers; integers model the numeric fields.) -/
inductive JVal
  | vstr (s : String)
  | vnum (n : Int)
  | vnull
  deriving DecidableEq, Repr

/-- JavaScript `String(value)` on the modelled scalars. -/
def jsToString : JVal → String
  | JVal.vstr s => s
  | JVal.vnum n => toString n
  | JVal.vnull => "null"

/-- JavaScript truthiness of a modelled scalar (`""`, `0` and `null` are
falsy, everything else truthy). -/
def jsTruthy : JVal → Bool
  | JVal.vstr s => s ≠ ""
  | JVal.vnum n => n ≠ 0
  | JVal.vnull => false

/-- JavaScript truthiness of an optional boolean envelope field (absent or
`false` is falsy; only `true` is truthy). -/
def jsTruthyFlag : Option Bool → Bool
  | some true => true
  | _ => false

/-- `haystack` starts with `needle` (character lists). -/
def listStartsWith : List Char → List Char → Bool
  | _, [] => true
  | [], _ :: _ => false
  | c :: cs, d :: ds => c == d && listStartsWith cs ds

/-- `pat` occurs as a contiguous substring of `l` (character lists). -/
def containsSub (l pat : List Char) : Bool :=
  listStartsWith l pat ||
    match l with
    | [] => false
    | _ :: t => containsSub t pat

/-- JavaScript `s.includes(sub)`. -/
def jsIncludes (s sub : String) : Bool :=
  containsSub s.toList sub.toList

/-- JavaScript `s.toLowerCase()` for the ASCII/Arabic strings handled by the
page (character-wise ASCII lowering; Arabic letters are unaffected, exactly
as in JavaScript). -/
def lowerStr (s : String) : String :=
  String.mk (s.toList.map Char.toLower)

/-- JavaScript `s.trim()`: drop leading and trailing whitespace. -/
def trimStr (s : String) : String :=
  String.mk
    (((s.toList.dropWhile Char.isWhitespace).reverse.dropWhile
        Char.isWhitespace).reverse)

/-- JavaScript `Number(value)` restricted to the values the page feeds it:
`null` and the empty string coerce to `0`, an unsigned decimal string to its
value, an integer number to itself; anything else is `NaN` (`none`). -/
def jsToNumber : JVal → Option Int
  | JVal.vnull => some 0
  | JVal.vnum n => some n
  | JVal.vstr s =>
    if s = "" then some 0
    else if s.toList.all Char.isDigit then
      some ((s.toList.foldl (fun a c => a * 10 + (c.toNat - 48)) 0 : Nat) : Int)
    else none

/-- `Math.round(n / d)` for integers with `d > 0`, as used by
`toArabicBytes` (round half towards positive infinity). -/
def mathRoundDiv (n d : Int) : Int :=
  (2 * n + d) / (2 * d)

/-- `(n / d).toFixed(2)` for integers with `0 < d ≤ n`: the integer scaled
to hundredths, rounded half up, rendered with exactly two decimals. -/
def toFixed2 (n d : Int) : String :=
  let digits := (200 * n + d) / (2 * d)
  let intPart := digits / 100
  let frac := digits % 100
  toString intPart ++ "." ++ (if frac < 10 then "0" else "") ++ toString frac

/-- `toArabicBytes` from `src/main.js`: format a byte count with binary
(1024) unit multiples; a non-numeric input is returned unchanged. -/
def toArabicBytes (bytes : JVal) : JVal :=
  match jsToNumber bytes with
  | none => bytes
  | some numBytes =>
    if numBytes < 1024 then JVal.vstr (toString numBytes ++ " بايت")
    else if numBytes < 1048576 then
      JVal.vstr (toString (mathRoundDiv numBytes 1024) ++ " كيلوبايت")
    else if numBytes < 1073741824 then
      JVal.vstr (toString (mathRoundDiv numBytes 1048576) ++ " ميغابايت")
    else JVal.vstr (toFixed2 numBytes 1073741824 ++ " جيجابايت")

/-- One destructuring step `[part, remaining] = remaining.split(c)` of
`toArabicTime`, guarded by `remaining.includes(c)`: yields the segment
before the first separator and the segment between the first and second
separator (or the rest when the separator occurs only once — exactly the
first two entries of the JavaScript `split` array). -/
def splitStep (c : Char) (remaining : List Char) : List Char × List Char :=
  if remaining.contains c then
    (remaining.takeWhile (fun x => x ≠ c),
     ((remaining.dropWhile (fun x => x ≠ c)).drop 1).takeWhile (fun x => x ≠ c))
  else ([], remaining)

/-- `toArabicTime` from `src/main.js`: parse a compact `<n>d<n>h<n>m<n>s`
duration token and render the present segments as a localized phrase; an
input with no parseable segments is returned unchanged. -/
def toArabicTime (timeStr : String) : String :=
  if timeStr = "" then ""
  else
    let p1 := splitStep 'd' timeStr.toList
    let days := String.mk p1.1
    let p2 := splitStep 'h' p1.2
    let hours := String.mk p2.1
    let p3 := splitStep 'm' p2.2
    let minutes := String.mk p3.1
    let seconds := String.mk
      (if p3.2.contains 's' then p3.2.takeWhile (fun x => x ≠ 's') else [])
    let result :=
      (if trimStr days ≠ "" then days ++ " يوم " else "") ++
      (if trimStr hours ≠ "" then hours ++ " ساعة " else "") ++
      (if trimStr minutes ≠ "" then minutes ++ " دقيقة " else "") ++
      (if trimStr seconds ≠ "" then seconds ++ " ثانية" else "")
    if trimStr result = "" then timeStr else trimStr result

/-- `hideHalfCard` from `src/main.js`: mask a username for display.  The
input is lowercased first; an empty (falsy) input yields the default
subscription label, a lowercased input containing `"t-"` the free-trial
label, a one-character input its lowercase form, and otherwise the first
`len - ceil(len/2)` lowercase characters followed by `ceil(len/2)` stars. -/
def hideHalfCard (username : String) : String :=
  if username = "" then "اشتراك"
  else
    let u := lowerStr username
    if jsIncludes u "t-" then "تجربة مجانية"
    else
      let length := u.length
      if length < 2 then u
      else
        let half := (length + 1) / 2
        String.mk (u.toList.take (length - half)) ++
          String.mk (List.replicate half '*')

/-- Fixed fallback when `toArabicError` receives a falsy or non-string
argument. -/
def unknownErrMsg : String := "حدث خطأ غير معروف."

/-- Localized message for a wrong password. -/
def passwordErrText : String := "تأكد من كتابة كلمة المرور بشكل صحيح."

/-- Localized message for an exhausted uptime allowance. -/
def timeExpiredText : String := "عذراً لقد انتهى الوقت المتاح لك."

/-- Localized message for the special `server ... is not responding`
multi-keyword check. -/
def serverNotRespText : String := "هذا الحساب غير موجود, يرجى التأكد والمحاولة مرة اخرى."

/-- Localized message for the special `web browser did not send`
multi-keyword check. -/
def browserNotSendText : String := "يرجى محاولة ادخال الكرت مرة اخرى."

/-- Prefix of the generic fallback `حصل خطأ: ${errorMsg}`. -/
def genericErrPrefix : String := "حصل خطأ: "

/-- The keyword table of `toArabicError`, in the object-literal insertion
order the `for ... in` loop follows.  The two `&`-marked multi-keyword keys
of the source object are skipped by the loop (`if (key.includes('&'))
continue`) and handled before it, so they are not part of this table; no key
contains `'|'`, so the loop's OR-branch is dead code for this table. -/
def errorTable : List (String × String) :=
  [("user not found", "هذا الحساب غير موجود أو قد انتهت صلاحيته، حاول مرة اخرى."),
   ("simultaneous session limit reached", "المعذرة، هذا الكرت مستخدم حالياً في جهاز آخر."),
   ("no more sessions are allowed", "المعذرة، هذا الكرت مستخدم حالياً في جهاز آخر."),
   ("invalid password", passwordErrText),
   ("uptime limit reached", timeExpiredText),
   ("no more online time", timeExpiredText),
   ("uptime limit", timeExpiredText),
   ("traffic limit reached", "لقد انتهى رصيد هذا الحساب."),
   ("transfer limit reached", "لقد انتهى رصيد هذا الحساب."),
   ("invalid username or password", "اسم المستخدم أو كلمة المرور غير صحيحة، الرجاء المحاولة مرة اخرى."),
   ("not found", "اسم المستخدم أو كلمة المرور غير صحيحة، الرجاء المحاولة مرة اخرى."),
   ("no valid profile found", "لقد انتهت صلاحية هذا الكرت."),
   ("invalid calling-station-id", "هذا الحساب مقترن بجهاز آخر!"),
   ("allowed to log in from this mac", "لا يحق لك استخدام هذا الكرت, الكرت محجوز لمستخدم اخر!")]

/-- First table entry whose key occurs in the lowercased error text, or the
generic fallback embedding the original text. -/
def firstMatch (lowerError : String) : List (String × String) → String → String
  | [], orig => genericErrPrefix ++ orig
  | kv :: rest, orig =>
    if jsIncludes lowerError kv.1 then kv.2 else firstMatch lowerError rest orig

/-- The first special multi-keyword AND-check of `toArabicError`
(`server` ∧ `is` ∧ `responding`). -/
def matchesServerCheck (lowerError : String) : Bool :=
  jsIncludes lowerError "server" && jsIncludes lowerError "is" &&
    jsIncludes lowerError "responding"

/-- The second special multi-keyword AND-check of `toArabicError`
(`web` ∧ `browser` ∧ `did` ∧ `send`). -/
def matchesBrowserCheck (lowerError : String) : Bool :=
  jsIncludes lowerError "web" && jsIncludes lowerError "browser" &&
    jsIncludes lowerError "did" && jsIncludes lowerError "send"

/-- `toArabicError` from `src/main.js`: localize a raw server error string
(case-insensitively; the two multi-keyword AND-checks run first, then the
table keys in insertion order; a falsy input yields a fixed unknown-error
message, an unmatched one the generic fallback embedding the raw text). -/
def toArabicError (errorMsg : String) : String :=
  if errorMsg = "" then unknownErrMsg
  else
    let lowerError := lowerStr errorMsg
    if matchesServerCheck lowerError then serverNotRespText
    else if matchesBrowserCheck lowerError then browserNotSendText
    else firstMatch lowerError errorTable errorMsg

/-- The status fields of the display that the `handleStatusQuery` update
loop can write (the keys of `statusFields` that carry a value and occur in
API envelopes; the two `*_item` container entries and the title are
modelled as separate state fields). -/
inductive StatusKey
  | username | ip | uptime | session_time_left
  | bytes_out | bytes_in | remain_bytes_total
  deriving DecidableEq, Repr

/-- The transient JSON envelope of an API response (`ApiEnvelope`): the
`action` tag plus the optional fields the five handlers read.  `none` means
the field is absent from the envelope. -/
structure Envelope where
  action : Option String := none
  logged_in : Option Bool := none
  error : Option String := none
  username : Option JVal := none
  ip : Option JVal := none
  uptime : Option JVal := none
  session_time_left : Option JVal := none
  bytes_out : Option JVal := none
  bytes_in : Option JVal := none
  remain_bytes_total : Option JVal := none
  mac : Option JVal := none
  deriving DecidableEq, Repr

/-- Field lookup `data[key]` / `data.hasOwnProperty(key)` for the status
fields. -/
def Envelope.get (e : Envelope) : StatusKey → Option JVal
  | StatusKey.username => e.username
  | StatusKey.ip => e.ip
  | StatusKey.uptime => e.uptime
  | StatusKey.session_time_left => e.session_time_left
  | StatusKey.bytes_out => e.bytes_out
  | StatusKey.bytes_in => e.bytes_in
  | StatusKey.remain_bytes_total => e.remain_bytes_total

/-- The major content section currently shown (`showLoginSection`,
`showStatusSection`, `hideAllSections`). -/
inductive UISection
  | loginSec | statusSec | hiddenSec
  deriving DecidableEq, Repr

/-- An HTTP request issued through `getRequest`. -/
inductive Request
  | statusReq
  | probeReq
  | loginReq (username password : String)
  | logoutReq (eraseCookie : Bool)
  deriving DecidableEq, Repr

/-- An observable effect directed at the outside world: an HTTP request, or
a call into one of the external collaborator scripts (cookie login,
brute-force blocker, cookie clearing). -/
inductive Eff
  | req (r : Request)
  | cookieLoginAttempt
  | resetFailCounter
  | blockerIncrement
  | clearCookiesCall
  deriving DecidableEq, Repr

/-- `STATUS_POLL_INTERVAL` from `src/main.js` (milliseconds). -/
def STATUS_POLL_INTERVAL : Nat := 1500

/-- `xhr.timeout` from `getRequest` (milliseconds). -/
def XHR_TIMEOUT_MS : Nat := 15000

/-- Default `innerHTML` of the status title restored by `handleLoggedOut`. -/
def defaultTitleHtml : String :=
  "<span class=\"en\">Connection Status</span><span class=\"ar\">حالة الاتصال</span>"

/-- The dual-language `innerHTML` written by the status-title special case
of `handleStatusQuery`. -/
def mkTitleHtml (t : String) : String :=
  "<span class=\"en\">" ++ t ++ "</span><span class=\"ar\">" ++ t ++ "</span>"

/-- The page state: the module-level mutable variables of `src/main.js`
together with the parts of the DOM the handlers read or write.
`statusPollInterval` holds the period of the active interval timer
(`some 1500`) or `none` when no poll timer is registered; `attrs` holds the
rendered `innerText` of each status field; `errorMsg` holds the text of the
JS error paragraph (`none` = empty/cleared). -/
structure State where
  isLoggedIn : Bool
  isAnimating : Bool
  statusPollInterval : Option Nat
  attrs : StatusKey → String
  timeLeftItemVisible : Bool
  remainItemVisible : Bool
  statusTitle : String
  shownSection : UISection
  errorMsg : Option String
  formUsername : String
  formPassword : String
  hotspotApiData : Option Envelope

attribute [ext] State

/-- `showLoginSection` (visible-section bookkeeping only; focus and
animation timing are visual detail outside the model). -/
def showLoginSectionS (s : State) : State :=
  { s with shownSection := UISection.loginSec }

/-- `showStatusSection` (visible-section bookkeeping only). -/
def showStatusSectionS (s : State) : State :=
  { s with shownSection := UISection.statusSec }

/-- `displayJsError`: write the message into the error paragraph and show
the popup. -/
def displayJsErrorS (message : String) (s : State) : State :=
  { s with errorMsg := some message }

/-- `stopStatusPolling`: clear the interval and the timer reference when one
is registered; otherwise do nothing. -/
def stopStatusPolling (s : State) : State :=
  match s.statusPollInterval with
  | some _ => { s with statusPollInterval := none }
  | none => s

/-- `startStatusPolling`: a no-op when polling is already active or the
user is not logged in; otherwise issue an immediate status request and
register the interval timer with period `STATUS_POLL_INTERVAL`. -/
def startStatusPolling (s : State) : State × List Eff :=
  match s.statusPollInterval with
  | some _ => (s, [])
  | none =>
    if !s.isLoggedIn then (s, [])
    else ({ s with statusPollInterval := some STATUS_POLL_INTERVAL },
          [Eff.req Request.statusReq])

/-- One firing of the registered poll interval callback: issue a status
request while logged in, otherwise stop the poller (the safeguard branch). -/
def pollTick (s : State) : State × List Eff :=
  if s.isLoggedIn then (s, [Eff.req Request.statusReq])
  else (stopStatusPolling s, [])

/-- `handleLoggedOut`: clear the logged-in flag, stop polling, clear errors,
return to the login section, reset the displayed status fields to `N/A`,
hide the two "remaining" items and restore the default status title. -/
def handleLoggedOut (s : State) : State :=
  let s1 := stopStatusPolling { s with isLoggedIn := false }
  { s1 with
    errorMsg := none,
    shownSection := UISection.loginSec,
    attrs := fun _ => "N/A",
    timeLeftItemVisible := false,
    remainItemVisible := false,
    statusTitle := defaultTitleHtml }

/-- Visibility computed by the update loop for the `session_time_left` /
`remain_bytes_total` items: shown only when the value is truthy and is
strictly unequal to the strings `'0'` and `'0s'`. -/
def updItemVisible (v : JVal) : Bool :=
  jsTruthy v && !(v == JVal.vstr "0") && !(v == JVal.vstr "0s")

/-- The `innerText` written for one status field by the update loop of
`handleStatusQuery`: `N/A` for a null/empty value, the masked username for
`username`, byte formatting for the `bytes` keys, duration formatting for
the keys containing `time`, and plain string coercion otherwise. -/
def renderVal (k : StatusKey) (v : JVal) : String :=
  if v = JVal.vstr "" ∨ v = JVal.vnull then "N/A"
  else
    match k with
    | StatusKey.username => hideHalfCard (jsToString v)
    | StatusKey.bytes_out => jsToString (toArabicBytes v)
    | StatusKey.bytes_in => jsToString (toArabicBytes v)
    | StatusKey.remain_bytes_total => jsToString (toArabicBytes v)
    | StatusKey.uptime => toArabicTime (jsToString v)
    | StatusKey.session_time_left => toArabicTime (jsToString v)
    | StatusKey.ip => jsToString v

/-- `data.mac.split('%3A').join(':')`. -/
def decodeMac (s : String) : String :=
  String.intercalate ":" (s.splitOn "%3A")

/-- The status-title special case at the end of `handleStatusQuery`: when
both `username` and `mac` are truthy, a username containing the decoded MAC
gets the free-card title, a username containing `t-` (case-insensitively)
the free-internet title; otherwise the title is left unchanged. -/
def updTitle (old : String) (e : Envelope) : String :=
  match e.username, e.mac with
  | some u, some m =>
    if jsTruthy u && jsTruthy m then
      let macFormatted := decodeMac (jsToString m)
      if jsIncludes (jsToString u) macFormatted then
        mkTitleHtml "كرت مجاني من خدمة اجمع واربح!"
      else if jsIncludes (lowerStr (jsToString u)) "t-" then
        mkTitleHtml "أنت الان تستخدم الانترنت المجاني"
      else old
    else old
  | _, _ => old

/-- The field-by-field update branch of `handleStatusQuery` (executed while
logged in): every field present in the envelope is re-rendered, absent
fields keep their displayed value, the two "remaining" items recompute
their visibility, and the title special case runs. -/
def updateFields (s : State) (e : Envelope) : State :=
  { s with
    attrs := fun k =>
      match e.get k with
      | some v => renderVal k v
      | none => s.attrs k,
    timeLeftItemVisible :=
      match e.session_time_left with
      | some v => updItemVisible v
      | none => s.timeLeftItemVisible,
    remainItemVisible :=
      match e.remain_bytes_total with
      | some v => updItemVisible v
      | none => s.remainItemVisible,
    statusTitle := updTitle s.statusTitle e }

/-- `handleStatusQuery` as it executes when the local flag is already set
(the configuration in which `handleLoggedIn` invokes it, so the re-login
branch is unreachable): a falsy remote `logged_in` runs the logout
transition followed by `showLoginSection`, otherwise the field update
runs. -/
def statusQueryLoggedIn (s : State) (e : Envelope) : State :=
  if !(jsTruthyFlag e.logged_in) then showLoginSectionS (handleLoggedOut s)
  else updateFields s e

/-- `handleLoggedIn`: set the logged-in flag, clear errors, reset the form,
call the external failed-attempt reset, apply the envelope as a status
update, transition to the status section and start the poller.  (The
`remember()` cookie write sits behind the external credential-persistence
collaborator excluded from the core model; `loginForm.reset()` restores the
empty defaults of the two text inputs.) -/
def handleLoggedIn (s : State) (e : Envelope) : State × List Eff :=
  let s1 := { s with
    isLoggedIn := true,
    errorMsg := none,
    formUsername := "",
    formPassword := "" }
  let s2 := statusQueryLoggedIn s1 e
  let s3 := showStatusSectionS s2
  let p := startStatusPolling s3
  (p.1, Eff.resetFailCounter :: p.2)

/-- `handleStatusQuery`: reconcile the local flag with the envelope's
`logged_in` — re-run the login transition when the server says logged in
but the page does not, run the logout transition when the page says logged
in but the server does not, update the displayed fields when both agree on
logged in, and do nothing when both agree on logged out. -/
def handleStatusQuery (s : State) (e : Envelope) : State × List Eff :=
  if !s.isLoggedIn && jsTruthyFlag e.logged_in then
    handleLoggedIn { s with isLoggedIn := true } e
  else if s.isLoggedIn && !(jsTruthyFlag e.logged_in) then
    (showLoginSectionS (handleLoggedOut s), [])
  else if s.isLoggedIn then
    (updateFields s e, [])
  else (s, [])

/-- `handleLoginStart`: store the probe envelope, derive the flag from
`logged_in === true`, and either replay the logged-in transition or fall to
the logged-out state, show the login form and invoke the external cookie
login. -/
def handleLoginStart (s : State) (e : Envelope) : State × List Eff :=
  let s1 := { s with
    hotspotApiData := some e,
    isLoggedIn := (e.logged_in == some true) }
  if e.logged_in == some true then handleLoggedIn s1 e
  else (showLoginSectionS (handleLoggedOut s1), [Eff.cookieLoginAttempt])

/-- Localized message shown for the transient `already authorizing` server
condition. -/
def retryLaterMsg : String :=
  "محاولة تسجيل الدخول متعارضة. يرجى الانتظار لحظة والمحاولة مرة أخرى."

/-- `handleLoginError`: clear the flags and, for a truthy error text,
either show the transient retry prompt (for the `already authorizing, retry
later` marker) or show the localized mapping of the error, bump the
brute-force counter (the blocker is enabled in `config.js`) and clear the
stored cookies.  The form is not reset. -/
def handleLoginError (s : State) (e : Envelope) : State × List Eff :=
  let s1 := { s with isLoggedIn := false, isAnimating := false }
  match e.error with
  | none => (s1, [])
  | some err =>
    if err = "" then (s1, [])
    else if jsIncludes (lowerStr err) "already authorizing, retry later" then
      (displayJsErrorS retryLaterMsg s1, [])
    else
      (displayJsErrorS (toArabicError err) s1,
       [Eff.blockerIncrement, Eff.clearCookiesCall])

/-- The classified outcome of one `getRequest` call, as produced by the
`onreadystatechange` / `onerror` / `ontimeout` callbacks: a 200 response
with a parsed JSON envelope, a 200 response whose body is not valid JSON, a
non-200 status, a connection-level failure, or no response within
`XHR_TIMEOUT_MS`. -/
inductive Outcome
  | success (e : Envelope)
  | parseFailure
  | httpError (code : Nat)
  | networkError
  | timeout
  deriving DecidableEq, Repr

/-- The four call sites of `getRequest`, determining whether the URL
contains `/status` and whether an error callback was supplied. -/
inductive ReqClass
  | statusPoll
  | initialProbe
  | loginSubmit
  | logoutSubmit
  deriving DecidableEq, Repr

/-- `url.includes('/status')` for each call site. -/
def isStatusUrl : ReqClass → Bool
  | ReqClass.statusPoll => true
  | _ => false

/-- Whether the call site passed a `callbackError` to `getRequest`. -/
def hasErrorCb : ReqClass → Bool
  | ReqClass.loginSubmit => true
  | ReqClass.logoutSubmit => true
  | _ => false

/-- `"Invalid response from server"`. -/
def invalidRespMsg : String := "Invalid response from server"

/-- `"Error reading server response."`. -/
def parseErrMsg : String := "Error reading server response."

/-- The `Server error (status)` message of the non-200 branch. -/
def serverErrMsg (code : Nat) : String :=
  "Server error (" ++ toString code ++ "). Please try again later."

/-- `"Network error. Please check your connection."`. -/
def networkErrMsg : String := "Network error. Please check your connection."

/-- `"The server is not responding. Please try again later."`. -/
def timeoutErrMsg : String := "The server is not responding. Please try again later."

/-- `"Logout failed. Please check connection or try again."`. -/
def logoutFailMsg : String := "Logout failed. Please check connection or try again."

/-- Fallback message of the login error callback. -/
def loginFallbackMsg : String := "Login failed. Please try again."

/-- The error callback `doUserLogin` passes to `getRequest`: reset the
animation flag, show the message only when the error paragraph is still
empty, and return to the login section. -/
def loginErrorCb (message : String) (s : State) : State × List Eff :=
  let s1 := { s with isAnimating := false }
  let s2 :=
    if s1.errorMsg = none then
      displayJsErrorS (if message = "" then loginFallbackMsg else message) s1
    else s1
  (showLoginSectionS s2, [])

/-- The error callback `doUserLogout` passes to `getRequest`: reset the
animation flag, display the fixed logout-failure message, then force the
logged-out transition (which clears the message again) and show the login
section. -/
def logoutErrorCb (s : State) : State × List Eff :=
  let s1 := displayJsErrorS logoutFailMsg { s with isAnimating := false }
  (showLoginSectionS (handleLoggedOut s1), [])

/-- Run the error callback belonging to the call site. -/
def runErrorCb (rc : ReqClass) (message : String) (s : State) : State × List Eff :=
  match rc with
  | ReqClass.loginSubmit => loginErrorCb message s
  | ReqClass.logoutSubmit => logoutErrorCb s
  | _ => (s, [])

/-- The fallback for a 200 response without a recognized `action`: invoke
the error callback when one was supplied, and additionally treat a status
poll as an implicit logout signal. -/
def invalidActionFallback (rc : ReqClass) (s : State) : State × List Eff :=
  let p := if hasErrorCb rc then runErrorCb rc invalidRespMsg s else (s, [])
  if isStatusUrl rc then (showLoginSectionS (handleLoggedOut p.1), p.2) else p

/-- The `apiActionHandlers` dispatch of a parsed envelope: the five action
tags map to their handlers; an absent or unrecognized tag falls back to
`invalidActionFallback`. -/
def dispatchEnvelope (rc : ReqClass) (s : State) (e : Envelope) : State × List Eff :=
  match e.action with
  | some "onLoginStart" => handleLoginStart s e
  | some "onLoginError" => handleLoginError s e
  | some "onLoggedIn" => handleLoggedIn s e
  | some "onLoggedOut" => (handleLoggedOut s, [])
  | some "onStatusQuery" => handleStatusQuery s e
  | _ => invalidActionFallback rc s

/-- Processing of one classified `getRequest` outcome, exactly following
the `onreadystatechange` / `onerror` / `ontimeout` branches of
`src/main.js`: every branch first resets the animation flag; a parse
failure or any non-200 status on a status poll forces the logout
transition, a network error on a poll is skipped (retry on next tick), a
timeout on a poll forces the logout transition; non-poll failures go to the
error callback when present and to the error display otherwise. -/
def processOutcome (rc : ReqClass) (o : Outcome) (s0 : State) : State × List Eff :=
  let s := { s0 with isAnimating := false }
  match o with
  | Outcome.success e => dispatchEnvelope rc s e
  | Outcome.parseFailure =>
    if isStatusUrl rc then (showLoginSectionS (handleLoggedOut s), [])
    else if hasErrorCb rc then runErrorCb rc parseErrMsg s
    else (displayJsErrorS parseErrMsg s, [])
  | Outcome.httpError code =>
    if hasErrorCb rc then runErrorCb rc (serverErrMsg code) s
    else if isStatusUrl rc then (showLoginSectionS (handleLoggedOut s), [])
    else (displayJsErrorS (serverErrMsg code) s, [])
  | Outcome.networkError =>
    if hasErrorCb rc then runErrorCb rc networkErrMsg s
    else if isStatusUrl rc then (s, [])
    else (displayJsErrorS networkErrMsg s, [])
  | Outcome.timeout =>
    if hasErrorCb rc then runErrorCb rc timeoutErrMsg s
    else if isStatusUrl rc then (showLoginSectionS (handleLoggedOut s), [])
    else (displayJsErrorS timeoutErrMsg s, [])

/-- Client-side validation message for an empty username. -/
def usernameRequiredMsg : String := "يرجى إدخال اسم المستخدم أو رقم التذكرة."

/-- `doUserLogin`: validate the trimmed username, then clear previous
errors, raise the animation/single-flight flag and issue the login request
with the trimmed username and the untrimmed password. -/
def doUserLogin (s : State) : State × List Eff :=
  let username := trimStr s.formUsername
  if username.length = 0 then
    ({ s with errorMsg := some usernameRequiredMsg, isAnimating := false }, [])
  else
    ({ s with errorMsg := none, isAnimating := true },
     [Eff.req (Request.loginReq username s.formPassword)])

/-- The `submit` listener installed by `setupEventListeners`: a submission
is dropped outright while `isAnimating` is set; otherwise `doUserLogin`
runs. -/
def submitLoginForm (s : State) : State × List Eff :=
  if s.isAnimating then (s, []) else doUserLogin s

/-- `doUserLogout`: raise the animation flag and issue the logout request
(optionally the cookie-erasing variant). -/
def doUserLogout (eraseCookie : Bool) (s : State) : State × List Eff :=
  ({ s with isAnimating := true },
   [Eff.req (Request.logoutReq eraseCookie)])

/-- The logout-button listener: dropped while `isAnimating` is set. -/
def clickLogout (eraseCookie : Bool) (s : State) : State × List Eff :=
  if s.isAnimating then (s, []) else doUserLogout eraseCookie s

/-- A concrete logged-in page state with an active poll timer, the status
section visible and no error shown. -/
def sLoggedInEx : State :=
  { isLoggedIn := true,
    isAnimating := false,
    statusPollInterval := some STATUS_POLL_INTERVAL,
    attrs := fun _ => "N/A",
    timeLeftItemVisible := false,
    remainItemVisible := false,
    statusTitle := defaultTitleHtml,
    shownSection := UISection.statusSec,
    errorMsg := none,
    formUsername := "",
    formPassword := "",
    hotspotApiData := none }

/-- A concrete logged-out page state with no poll timer and the login form
visible. -/
def sLoggedOutEx : State :=
  { sLoggedInEx with
    isLoggedIn := false,
    statusPollInterval := none,
    shownSection := UISection.loginSec }

/-- A status envelope reporting an active server session (used to exercise
the self-healing re-login branch). -/
def envRelogin : Envelope :=
  { action := some "onStatusQuery",
    logged_in := some true,
    ip := some (JVal.vstr "10.0.0.7"),
    bytes_in := some (JVal.vnum 2048) }

/-- A status envelope reporting an expired server session. -/
def envExpired : Envelope :=
  { action := some "onStatusQuery", logged_in := some false }

/-- An `onLoggedIn` envelope whose `logged_in` field is absent. -/
def envLoginNoFlag : Envelope :=
  { action := some "onLoggedIn", username := some (JVal.vstr "u1") }

/-- `startStatusPolling` never changes the logged-in flag. -/
theorem startStatusPolling_fst_isLoggedIn (s : State) :
    (startStatusPolling s).1.isLoggedIn = s.isLoggedIn := by
  unfold startStatusPolling
  cases s.statusPollInterval with
  | none => cases h : s.isLoggedIn <;> simp [h]
  | some p => rfl

/-- `startStatusPolling` never changes the displayed status fields. -/
theorem startStatusPolling_fst_attrs (s : State) :
    (startStatusPolling s).1.attrs = s.attrs := by
  unfold startStatusPolling
  cases s.statusPollInterval with
  | none => cases h : s.isLoggedIn <;> simp [h]
  | some p => rfl

/-- When the page is not logged in, `startStatusPolling` is a no-op. -/
theorem startStatusPolling_not_loggedIn (s : State) (h : s.isLoggedIn = false) :
    startStatusPolling s = (s, []) := by
  unfold startStatusPolling
  cases s.statusPollInterval with
  | none => simp [h]
  | some p => rfl

/-- Validation of the `statusQueryLoggedIn` specialisation: on a state whose
logged-in flag is set, `handleStatusQuery` runs exactly that code path and
issues no effect. -/
theorem handleStatusQuery_when_loggedIn (s : State) (e : Envelope)
    (h : s.isLoggedIn = true) :
    handleStatusQuery s e = (statusQueryLoggedIn s e, []) := by
  unfold handleStatusQuery statusQueryLoggedIn
  cases hf : jsTruthyFlag e.logged_in <;> simp [h, hf]

/-- C6: the `onLoggedOut` transition is idempotent — running
`handleLoggedOut` twice from any state produces exactly the state one run
produces (logged-in flag, poll timer, displayed attributes, error, section
and title included). -/
theorem claim_C6_loggedOut_idempotent (s : State) :
    handleLoggedOut (handleLoggedOut s) = handleLoggedOut s := by
  unfold handleLoggedOut stopStatusPolling
  cases h : s.statusPollInterval <;> simp

/-- `stopStatusPolling` always leaves the timer reference cleared. -/
theorem stopStatusPolling_interval (s : State) :
    (stopStatusPolling s).statusPollInterval = none := by
  unfold stopStatusPolling
  cases hsp : s.statusPollInterval <;> simp [hsp]

/-- `stopStatusPolling` is idempotent. -/
theorem stopStatusPolling_idem (s : State) :
    stopStatusPolling (stopStatusPolling s) = stopStatusPolling s := by
  unfold stopStatusPolling
  cases hsp : s.statusPollInterval <;> simp [hsp]

/-- The poller invariant of the specification: a registered poll timer
implies the page is logged in. -/
def pollInvariant (s : State) : Prop :=
  s.statusPollInterval ≠ none → s.isLoggedIn = true

/-- C4: the poller contract.  `startStatusPolling` is a no-op when a timer
is already registered or the page is logged out, and otherwise registers
the 1500 ms interval after issuing one immediate status request; a tick of
the registered interval issues one status request while logged in;
`stopStatusPolling` is idempotent and clears the timer reference; and both
operations preserve the invariant `pollHandle ≠ none → loggedIn`. -/
theorem claim_C4_poller_contract (s : State) :
    (s.statusPollInterval ≠ none → startStatusPolling s = (s, [])) ∧
    (s.isLoggedIn = false → startStatusPolling s = (s, [])) ∧
    (s.statusPollInterval = none → s.isLoggedIn = true →
      startStatusPolling s =
        ({ s with statusPollInterval := some STATUS_POLL_INTERVAL },
         [Eff.req Request.statusReq])) ∧
    (s.isLoggedIn = true → pollTick s = (s, [Eff.req Request.statusReq])) ∧
    (pollInvariant s → pollInvariant (startStatusPolling s).1) ∧
    pollInvariant (stopStatusPolling s) ∧
    stopStatusPolling (stopStatusPolling s) = stopStatusPolling s ∧
    (stopStatusPolling s).statusPollInterval = none := by
  refine ⟨?_, ?_, ?_, ?_, ?_, ?_, stopStatusPolling_idem s, stopStatusPolling_interval s⟩
  · intro h
    unfold startStatusPolling
    cases hsp : s.statusPollInterval with
    | none => exact absurd hsp h
    | some p => rfl
  · exact fun h => startStatusPolling_not_loggedIn s h
  · intro hsp hli
    unfold startStatusPolling
    rw [hsp]
    simp [hli]
  · intro hli
    unfold pollTick
    simp [hli]
  · intro hinv h
    rw [startStatusPolling_fst_isLoggedIn]
    cases hsp : s.statusPollInterval with
    | some p => exact hinv (by rw [hsp]; simp)
    | none =>
      cases hli : s.isLoggedIn with
      | true => rfl
      | false =>
        exfalso
        apply h
        rw [startStatusPolling_not_loggedIn s hli]
        exact hsp
  · intro h
    exact absurd (stopStatusPolling_interval s) h

/-- C4 witness: the contract applied to the concrete states. -/
theorem claim_C4_witness :
    startStatusPolling sLoggedInEx = (sLoggedInEx, []) ∧
    startStatusPolling sLoggedOutEx = (sLoggedOutEx, []) ∧
    (stopStatusPolling sLoggedInEx).statusPollInterval = none := by
  have h1 := claim_C4_poller_contract sLoggedInEx
  have h2 := claim_C4_poller_contract sLoggedOutEx
  exact ⟨h1.1 (by simp [sLoggedInEx]), h2.2.1 rfl, h1.2.2.2.2.2.2.2⟩

/-- C1 counterexample: in the concrete logged-in state with an active poll
timer, a status poll that ends in `Timeout` does *not* leave the state
logged in — the `ontimeout` branch of `getRequest` forces the logout
transition and stops the poll timer, contradicting the claim. -/
theorem claim_C1_counterexample :
    (processOutcome ReqClass.statusPoll Outcome.timeout sLoggedInEx).1.isLoggedIn ≠ true ∧
    (processOutcome ReqClass.statusPoll Outcome.timeout sLoggedInEx).1.statusPollInterval = none := by
  constructor
  · decide
  · decide

/-- C1 (amended): a status poll that ends in `Timeout` while the page is
logged in forces the `onLoggedOut` transition — the state becomes logged
out, the poll timer is stopped and the login section is shown — and still
no user-visible error message is displayed (the error paragraph ends up
cleared); no further request or external call is made. -/
theorem claim_C1_amended_poll_timeout (s : State) (h : s.isLoggedIn = true) :
    (processOutcome ReqClass.statusPoll Outcome.timeout s).1.isLoggedIn = false ∧
    (processOutcome ReqClass.statusPoll Outcome.timeout s).1.statusPollInterval = none ∧
    (processOutcome ReqClass.statusPoll Outcome.timeout s).1.errorMsg = none ∧
    (processOutcome ReqClass.statusPoll Outcome.timeout s).1.shownSection = UISection.loginSec ∧
    (processOutcome ReqClass.statusPoll Outcome.timeout s).2 = [] := by
  unfold processOutcome
  simp only [isStatusUrl, hasErrorCb]
  unfold showLoginSectionS handleLoggedOut stopStatusPolling
  cases hsp : s.statusPollInterval <;> simp [hsp]

/-- C1 witness: the amended theorem applied to the concrete logged-in
state. -/
theorem claim_C1_witness :
    sLoggedInEx.isLoggedIn = true ∧
    (processOutcome ReqClass.statusPoll Outcome.timeout sLoggedInEx).1.statusPollInterval = none ∧
    (processOutcome ReqClass.statusPoll Outcome.timeout sLoggedInEx).1.errorMsg = none := by
  have h := claim_C1_amended_poll_timeout sLoggedInEx rfl
  exact ⟨rfl, h.2.1, h.2.2.1⟩

/-- C3: while logged in, a status poll ending in `HttpError` (any non-200
status) forces the `onLoggedOut` transition — the logged-in flag falls, the
poll timer stops and no error message is displayed — whereas a poll ending
in `NetworkError` leaves the logged-in flag, the poll timer and the error
display untouched. -/
theorem claim_C3_poll_http_vs_network (s : State) (code : Nat)
    (hli : s.isLoggedIn = true) (hc : code ≠ 200) :
    ((processOutcome ReqClass.statusPoll (Outcome.httpError code) s).1.isLoggedIn = false ∧
     (processOutcome ReqClass.statusPoll (Outcome.httpError code) s).1.statusPollInterval = none ∧
     (processOutcome ReqClass.statusPoll (Outcome.httpError code) s).1.errorMsg = none) ∧
    ((processOutcome ReqClass.statusPoll Outcome.networkError s).1.isLoggedIn = true ∧
     (processOutcome ReqClass.statusPoll Outcome.networkError s).1.statusPollInterval =
       s.statusPollInterval ∧
     (processOutcome ReqClass.statusPoll Outcome.networkError s).1.errorMsg = s.errorMsg) := by
  constructor
  · unfold processOutcome
    simp only [isStatusUrl, hasErrorCb]
    unfold showLoginSectionS handleLoggedOut stopStatusPolling
    cases hsp : s.statusPollInterval <;> simp [hsp]
  · unfold processOutcome
    simp only [isStatusUrl, hasErrorCb]
    exact ⟨hli, rfl, rfl⟩

/-- C3 witness: an HTTP 403 poll outcome logs the concrete state out while
a network-error outcome leaves it logged in. -/
theorem claim_C3_witness :
    sLoggedInEx.isLoggedIn = true ∧
    (processOutcome ReqClass.statusPoll (Outcome.httpError 403) sLoggedInEx).1.isLoggedIn = false ∧
    (processOutcome ReqClass.statusPoll (Outcome.httpError 403) sLoggedInEx).1.statusPollInterval = none ∧
    (processOutcome ReqClass.statusPoll Outcome.networkError sLoggedInEx).1.isLoggedIn = true := by
  have h := claim_C3_poll_http_vs_network sLoggedInEx 403 rfl (by decide)
  exact ⟨rfl, h.1.1, h.1.2.1, h.2.1⟩

/-- C2: `handleStatusQuery` reconciliation.  An envelope with
`logged_in = true` arriving while the page is logged out re-runs the
`onLoggedIn` transition, leaving the page logged in with every status field
present in the envelope rendered from the envelope's value; an envelope
with `logged_in = false` arriving while the page is logged in runs the
`onLoggedOut` transition, leaving the page logged out with polling
stopped. -/
theorem claim_C2_status_reconciliation (s : State) (e : Envelope) :
    (s.isLoggedIn = false → e.logged_in = some true →
      handleStatusQuery s e = handleLoggedIn { s with isLoggedIn := true } e ∧
      (handleStatusQuery s e).1.isLoggedIn = true ∧
      ∀ (k : StatusKey) (v : JVal), e.get k = some v →
        (handleStatusQuery s e).1.attrs k = renderVal k v) ∧
    (s.isLoggedIn = true → e.logged_in = some false →
      handleStatusQuery s e = (showLoginSectionS (handleLoggedOut s), []) ∧
      (handleStatusQuery s e).1.isLoggedIn = false ∧
      (handleStatusQuery s e).1.statusPollInterval = none) := by
  constructor
  · intro h1 h2
    have heq : handleStatusQuery s e = handleLoggedIn { s with isLoggedIn := true } e := by
      unfold handleStatusQuery
      simp [h1, h2, jsTruthyFlag]
    refine ⟨heq, ?_, ?_⟩
    · rw [heq]
      simp only [handleLoggedIn]
      rw [startStatusPolling_fst_isLoggedIn]
      unfold showStatusSectionS statusQueryLoggedIn
      simp [h2, jsTruthyFlag, updateFields]
    · intro k v hk
      rw [heq]
      simp only [handleLoggedIn]
      rw [startStatusPolling_fst_attrs]
      unfold showStatusSectionS statusQueryLoggedIn
      simp [h2, jsTruthyFlag, updateFields, hk]
  · intro h1 h2
    have heq : handleStatusQuery s e = (showLoginSectionS (handleLoggedOut s), []) := by
      unfold handleStatusQuery
      simp [h1, h2, jsTruthyFlag]
    refine ⟨heq, ?_, ?_⟩
    · rw [heq]
      unfold showLoginSectionS handleLoggedOut stopStatusPolling
      cases hsp : s.statusPollInterval <;> simp [hsp]
    · rw [heq]
      unfold showLoginSectionS handleLoggedOut stopStatusPolling
      cases hsp : s.statusPollInterval <;> simp [hsp]

/-- C2 witness: the reconciliation applied to the concrete states — the
re-login branch renders the envelope's `ip` field, and the expiry branch
logs out and stops polling. -/
theorem claim_C2_witness :
    sLoggedOutEx.isLoggedIn = false ∧
    (handleStatusQuery sLoggedOutEx envRelogin).1.isLoggedIn = true ∧
    (handleStatusQuery sLoggedOutEx envRelogin).1.attrs StatusKey.ip = "10.0.0.7" ∧
    (handleStatusQuery sLoggedInEx envExpired).1.isLoggedIn = false ∧
    (handleStatusQuery sLoggedInEx envExpired).1.statusPollInterval = none := by
  have h1 := (claim_C2_status_reconciliation sLoggedOutEx envRelogin).1 rfl rfl
  have h2 := (claim_C2_status_reconciliation sLoggedInEx envExpired).2 rfl rfl
  refine ⟨rfl, h1.2.1, ?_, h2.2.1, h2.2.2⟩
  have hip := h1.2.2 StatusKey.ip (JVal.vstr "10.0.0.7") rfl
  rw [hip]
  decide

/-- C5: the single-flight login guard.  A form submission made while
`isAnimating` is raised (a request in flight) is dropped with no state
change and no request issued; a valid submission made while it is lowered
raises the flag and issues exactly one login request, after which a second
submission is again dropped unchanged (dropped, not deferred — no queue
exists in the model). -/
theorem claim_C5_login_single_flight (s : State) :
    (s.isAnimating = true → submitLoginForm s = (s, [])) ∧
    (s.isAnimating = false → trimStr s.formUsername ≠ "" →
      submitLoginForm s =
        ({ s with errorMsg := none, isAnimating := true },
         [Eff.req (Request.loginReq (trimStr s.formUsername) s.formPassword)]) ∧
      submitLoginForm (submitLoginForm s).1 = ((submitLoginForm s).1, [])) := by
  constructor
  · intro h
    unfold submitLoginForm
    simp [h]
  · intro h hu
    have hlen : ¬(trimStr s.formUsername).length = 0 := by
      intro hl
      apply hu
      unfold trimStr at hl ⊢
      rw [List.length_eq_zero.mp hl]
    have heq : submitLoginForm s =
        ({ s with errorMsg := none, isAnimating := true },
         [Eff.req (Request.loginReq (trimStr s.formUsername) s.formPassword)]) := by
      unfold submitLoginForm doUserLogin
      simp [h, hlen]
    refine ⟨heq, ?_⟩
    rw [heq]
    unfold submitLoginForm
    simp

/-- C5 witness: the guard applied to a concrete busy state and a concrete
idle state with a filled form. -/
theorem claim_C5_witness :
    ({ sLoggedOutEx with isAnimating := true } : State).isAnimating = true ∧
    submitLoginForm { sLoggedOutEx with isAnimating := true } =
      ({ sLoggedOutEx with isAnimating := true }, []) ∧
    submitLoginForm
        (submitLoginForm { sLoggedOutEx with formUsername := "user1" }).1 =
      ((submitLoginForm { sLoggedOutEx with formUsername := "user1" }).1, []) := by
  have h1 := claim_C5_login_single_flight { sLoggedOutEx with isAnimating := true }
  have h2 := claim_C5_login_single_flight { sLoggedOutEx with formUsername := "user1" }
  exact ⟨rfl, h1.1 rfl, (h2.2 rfl (by decide)).2⟩

/-- The `onLoggedOut` transition always clears the logged-in flag. -/
theorem handleLoggedOut_isLoggedIn (s : State) :
    (handleLoggedOut s).isLoggedIn = false := by
  unfold handleLoggedOut stopStatusPolling
  cases hsp : s.statusPollInterval <;> simp [hsp]

/-- The `onLoggedOut` transition always clears the poll timer. -/
theorem handleLoggedOut_interval (s : State) :
    (handleLoggedOut s).statusPollInterval = none := by
  unfold handleLoggedOut stopStatusPolling
  cases hsp : s.statusPollInterval <;> simp [hsp]

/-- C7: an envelope dispatched to `handleLoggedIn` whose `logged_in` field
is absent or `false` leaves the machine logged out with polling stopped:
the handler raises the flag, but the embedded `handleStatusQuery` step sees
the falsy remote flag and runs the `onLoggedOut` transition, and the final
`startStatusPolling` call is then a no-op. -/
theorem claim_C7_loggedIn_falsy_flag (s : State) (e : Envelope)
    (h : jsTruthyFlag e.logged_in = false) :
    (handleLoggedIn s e).1.isLoggedIn = false ∧
    (handleLoggedIn s e).1.statusPollInterval = none := by
  simp only [handleLoggedIn]
  have hsq : statusQueryLoggedIn
      { s with isLoggedIn := true, errorMsg := none,
               formUsername := "", formPassword := "" } e =
      showLoginSectionS (handleLoggedOut
        { s with isLoggedIn := true, errorMsg := none,
                 formUsername := "", formPassword := "" }) := by
    unfold statusQueryLoggedIn
    simp [h]
  rw [hsq]
  rw [startStatusPolling_fst_isLoggedIn]
  have hli : (showStatusSectionS (showLoginSectionS (handleLoggedOut
      { s with isLoggedIn := true, errorMsg := none,
               formUsername := "", formPassword := "" }))).isLoggedIn = false := by
    simp only [showStatusSectionS, showLoginSectionS]
    exact handleLoggedOut_isLoggedIn _
  refine ⟨hli, ?_⟩
  rw [startStatusPolling_not_loggedIn _ hli]
  simp only [showStatusSectionS, showLoginSectionS]
  exact handleLoggedOut_interval _

/-- C7 witness: the concrete `onLoggedIn` envelope without a `logged_in`
field leaves the concrete state logged out with no poll timer. -/
theorem claim_C7_witness :
    jsTruthyFlag envLoginNoFlag.logged_in = false ∧
    (handleLoggedIn sLoggedOutEx envLoginNoFlag).1.isLoggedIn = false ∧
    (handleLoggedIn sLoggedOutEx envLoginNoFlag).1.statusPollInterval = none := by
  have h := claim_C7_loggedIn_falsy_flag sLoggedOutEx envLoginNoFlag rfl
  exact ⟨rfl, h.1, h.2⟩

/-- C8 counterexample: the identifier `"A"` is shorter than 2 characters
but is *not* returned unchanged — `hideHalfCard` lowercases its input
before the length check, so `"A"` renders as `"a"`. -/
theorem claim_C8_counterexample :
    hideHalfCard "A" = "a" ∧ ("a" : String) ≠ "A" := by
  constructor
  · decide
  · decide

/-- C8 (amended): `hideHalfCard` lowercases the username first.  An empty
username yields the default subscription label; a username whose lowercase
form contains the trial marker `"t-"` yields the fixed free-trial label; a
nonempty username shorter than 2 characters is returned in lowercase form;
otherwise the first `len - ceil(len/2)` characters of the lowercase form
are shown verbatim and the remaining `ceil(len/2)` characters are replaced
by mask characters — in particular `"ab"` yields `"a*"`. -/
theorem claim_C8_mask_amended (s : String) :
    (s ≠ "" → jsIncludes (lowerStr s) "t-" = true →
      hideHalfCard s = "تجربة مجانية") ∧
    (s ≠ "" → jsIncludes (lowerStr s) "t-" = false → (lowerStr s).length < 2 →
      hideHalfCard s = lowerStr s) ∧
    (s ≠ "" → jsIncludes (lowerStr s) "t-" = false → 2 ≤ (lowerStr s).length →
      hideHalfCard s =
        String.mk ((lowerStr s).toList.take
            ((lowerStr s).length - ((lowerStr s).length + 1) / 2)) ++
          String.mk (List.replicate (((lowerStr s).length + 1) / 2) '*')) ∧
    hideHalfCard "" = "اشتراك" ∧
    hideHalfCard "ab" = "a*" := by
  refine ⟨?_, ?_, ?_, by decide, by decide⟩
  · intro h1 h2
    unfold hideHalfCard
    simp [h1, h2]
  · intro h1 h2 h3
    unfold hideHalfCard
    simp [h1, h2, h3]
  · intro h1 h2 h3
    unfold hideHalfCard
    simp [h1, h2]
    intro hlt
    exact absurd hlt (by omega)

/-- C8 witness: the amended masking rule applied to the concrete
identifier `"WiFi7"`. -/
theorem claim_C8_witness :
    ("WiFi7" : String) ≠ "" ∧
    jsIncludes (lowerStr "WiFi7") "t-" = false ∧
    hideHalfCard "WiFi7" = "wi***" := by
  have h := (claim_C8_mask_amended "WiFi7").2.2.1 (by decide) (by decide) (by decide)
  refine ⟨by decide, by decide, ?_⟩
  rw [h]
  decide

/-- A lowered error text matching no key of the table falls through
`firstMatch` to the generic fallback. -/
theorem firstMatch_no_match (l orig : String) (tbl : List (String × String))
    (h : tbl.all (fun kv => !(jsIncludes l kv.1)) = true) :
    firstMatch l tbl orig = genericErrPrefix ++ orig := by
  induction tbl with
  | nil => rfl
  | cons kv rest ih =>
    rw [List.all_cons, Bool.and_eq_true, Bool.not_eq_true'] at h
    unfold firstMatch
    rw [h.1]
    simpa using ih h.2

/-- C9 counterexample: the empty raw error string is matched by no mapping
entry, yet it does *not* render as the generic fallback embedding the raw
text — `toArabicError` returns the fixed unknown-error message for a falsy
input. -/
theorem claim_C9_counterexample :
    toArabicError "" = unknownErrMsg ∧
    toArabicError "" ≠ genericErrPrefix ++ "" := by
  constructor
  · decide
  · decide

/-- C9 (amended): `toArabicError` matches the lowercased raw text first
against the two multi-keyword AND-checks and then against the table keys in
insertion order.  When no earlier check fires, a text containing
`"invalid password"` maps to the password message and a text containing
`"uptime limit"` to the time-expired message; a nonempty text matching no
entry maps to the generic fallback embedding the original raw text, while
the empty (falsy) text maps to the fixed unknown-error message instead. -/
theorem claim_C9_error_mapping_amended (s : String) :
    (s ≠ "" → matchesServerCheck (lowerStr s) = false →
      matchesBrowserCheck (lowerStr s) = false →
      ((jsIncludes (lowerStr s) "user not found" = false →
        jsIncludes (lowerStr s) "simultaneous session limit reached" = false →
        jsIncludes (lowerStr s) "no more sessions are allowed" = false →
        jsIncludes (lowerStr s) "invalid password" = true →
        toArabicError s = passwordErrText) ∧
       (jsIncludes (lowerStr s) "user not found" = false →
        jsIncludes (lowerStr s) "simultaneous session limit reached" = false →
        jsIncludes (lowerStr s) "no more sessions are allowed" = false →
        jsIncludes (lowerStr s) "invalid password" = false →
        jsIncludes (lowerStr s) "uptime limit" = true →
        toArabicError s = timeExpiredText) ∧
       (errorTable.all (fun kv => !(jsIncludes (lowerStr s) kv.1)) = true →
        toArabicError s = genericErrPrefix ++ s))) ∧
    toArabicError "" = unknownErrMsg ∧
    toArabicError "invalid password" = passwordErrText ∧
    toArabicError "Uptime Limit reached" = timeExpiredText ∧
    toArabicError "zzz qqq" = genericErrPrefix ++ "zzz qqq" := by
  refine ⟨?_, by decide, by decide, by decide, by decide⟩
  intro hne hsrv hbrw
  refine ⟨?_, ?_, ?_⟩
  · intro h1 h2 h3 h4
    unfold toArabicError
    simp only [hne, if_neg, hsrv, hbrw, if_false, Bool.false_eq_true]
    simp [hne, hsrv, hbrw, firstMatch, errorTable, h1, h2, h3, h4]
  · intro h1 h2 h3 h4 h7
    unfold toArabicError
    cases h5 : jsIncludes (lowerStr s) "uptime limit reached" <;>
      cases h6 : jsIncludes (lowerStr s) "no more online time" <;>
        simp [hne, hsrv, hbrw, firstMatch, errorTable, h1, h2, h3, h4, h5, h6, h7]
  · intro hall
    have h := firstMatch_no_match (lowerStr s) s errorTable hall
    unfold toArabicError
    simp [hne, hsrv, hbrw, h]

/-- C9 witness: a concrete password error and a concrete unmapped error
run through the amended mapping. -/
theorem claim_C9_witness :
    toArabicError "Invalid Password" = passwordErrText ∧
    toArabicError "no match here" = genericErrPrefix ++ "no match here" := by
  have h := claim_C9_error_mapping_amended "Invalid Password"
  have h2 := claim_C9_error_mapping_amended "no match here"
  exact ⟨(h.1 (by decide) (by decide) (by decide)).1
           (by decide) (by decide) (by decide) (by decide),
         (h2.1 (by decide) (by decide) (by decide)).2.2 (by decide)⟩

/-- C10: `toArabicBytes` maps a numeric byte count to the largest binary
unit not exceeding it (byte below 1024, kilobyte below 1024², megabyte
below 1024³, gigabyte above), rounding to the nearest integer except for
gigabytes which get two decimal places, and returns any non-numeric input
unchanged — with the spec's four concrete vectors. -/
theorem claim_C10_bytes_formatting (n : Int) :
    (n < 1024 → toArabicBytes (JVal.vnum n) = JVal.vstr (toString n ++ " بايت")) ∧
    (1024 ≤ n → n < 1048576 →
      toArabicBytes (JVal.vnum n) =
        JVal.vstr (toString (mathRoundDiv n 1024) ++ " كيلوبايت")) ∧
    (1048576 ≤ n → n < 1073741824 →
      toArabicBytes (JVal.vnum n) =
        JVal.vstr (toString (mathRoundDiv n 1048576) ++ " ميغابايت")) ∧
    (1073741824 ≤ n →
      toArabicBytes (JVal.vnum n) =
        JVal.vstr (toFixed2 n 1073741824 ++ " جيجابايت")) ∧
    (∀ str : String, jsToNumber (JVal.vstr str) = none →
      toArabicBytes (JVal.vstr str) = JVal.vstr str) ∧
    toArabicBytes (JVal.vnum 500) = JVal.vstr "500 بايت" ∧
    toArabicBytes (JVal.vnum 2048) = JVal.vstr "2 كيلوبايت" ∧
    toArabicBytes (JVal.vnum 5242880) = JVal.vstr "5 ميغابايت" ∧
    toArabicBytes (JVal.vnum 2147483648) = JVal.vstr "2.00 جيجابايت" := by
  refine ⟨?_, ?_, ?_, ?_, ?_, by decide, by decide, by decide, by decide⟩
  · intro h
    simp [toArabicBytes, jsToNumber, h]
  · intro h1 h2
    simp [toArabicBytes, jsToNumber, h2, show ¬n < 1024 by omega]
  · intro h1 h2
    simp [toArabicBytes, jsToNumber, h2,
      show ¬n < 1024 by omega, show ¬n < 1048576 by omega]
  · intro h1
    simp [toArabicBytes, jsToNumber, show ¬n < 1024 by omega,
      show ¬n < 1048576 by omega, show ¬n < 1073741824 by omega]
  · intro str h
    unfold toArabicBytes
    rw [h]

/-- C10 witness: the branch characterization applied to the concrete
kilobyte vector and a concrete non-numeric input. -/
theorem claim_C10_witness :
    (1024 : Int) ≤ 2048 ∧ (2048 : Int) < 1048576 ∧
    toArabicBytes (JVal.vnum 2048) =
      JVal.vstr (toString (mathRoundDiv 2048 1024) ++ " كيلوبايت") ∧
    jsToNumber (JVal.vstr "abc") = none ∧
    toArabicBytes (JVal.vstr "abc") = JVal.vstr "abc" := by
  have h := claim_C10_bytes_formatting 2048
  have h2 := claim_C10_bytes_formatting 0
  exact ⟨by decide, by decide, h.2.1 (by decide) (by decide), by decide,
         h2.2.2.2.2.1 "abc" (by decide)⟩
